import Mathlib

/-!
# Verification of `agent_based_epidemic_sim/learning/abesim_data_loader.py`

A shallow embedding of `AbesimExposureDataLoader.get_next_batch` and its
helpers, together with theorems settling the claims about the windowed
batch-extraction pipeline.

## Modelling conventions

* Timestamps (`google.protobuf.Timestamp` fields) and durations
  (`google.protobuf.Duration` fields) are modelled as whole seconds (`Int`).
  `Timestamp.ToDatetime()` comparisons coincide with integer comparison of
  the second counts, and `datetime.timedelta(days = d)` added to a datetime
  shifts its second count by `d * 86400`.
* Python `datetime.timedelta` normalises a duration of `s` total seconds to
  `days = s.fdiv 86400` (floor division, toward negative infinity) and
  `seconds = s.fmod 86400` (the remainder in `[0, 86400)`); `Duration
  .ToTimedelta()` produces exactly that normalised value.
* `float` distances (the scalar `distance` field and the samples of the
  repeated `proximity_trace` field) are modelled as `Rat`: no arithmetic is
  ever performed on them, the code only copies them and tests `not
  exposure.distance`, i.e. equality with `0.0`.  (`distance` is a proto3
  scalar without explicit presence: an unset field reads as `0.0` and is
  indistinguishable from a stored `0.0`.)
* Singular *message*-typed proto fields (`test_administered_time`,
  `infection_onset_time`, `exposure_time`, `duration`,
  `proximity_trace_temporal_resolution`, `duration_since_symptom_onset`)
  are modelled as `Option Int` carrying wire presence.  Python protobuf
  semantics, reflected by `messageFieldTruthy` / `messageFieldValue` below:
  generated message objects define neither `__bool__` nor `__len__`, so a
  message field used in boolean context (`if record.infection_onset_time:`)
  is *always* truthy, whether or not the field is set; reading an unset
  field returns the default (all-zero) message.  Repeated fields, by
  contrast, define `__len__`, so `if not exposure.proximity_trace:` tests
  emptiness.
* The Riegeli cursor is modelled as the list of records remaining in the
  stream; `get_next_batch` returns the advanced cursor alongside the batch.
  The loop guard `self.index_reader.pos.numeric != self.index_reader.size()`
  is the list being nonempty, and `read_message` never fails on the records
  of a well-formed store (the `if not record: continue` guard is for failed
  reads only, so it does not appear in the model).
* `raise ValueError(...)` is modelled with `Except`: an error return carries
  no batch data, matching the fact that a raise discards the local
  accumulator lists.
-/

namespace AbesimDataLoader

/-- Python protobuf: a singular message-typed field in boolean context.
Generated message classes define neither `__bool__` nor `__len__`, so
`bool(record.some_message_field)` is `True` even when the field is unset.
This constant function is the crux of the dead branches found below. -/
def messageFieldTruthy (o : Option Int) : Bool :=
  match o with
  | _ => true

/-- Python protobuf: reading a singular message field.  An unset field
yields the default message, whose second count is `0`. -/
def messageFieldValue (o : Option Int) : Int :=
  o.getD 0

/-- `ExposuresPerTestResult.ExposureType` values the loader compares
against (the proto schema itself is not part of the sources; the spec
enumerates `{CONFIRMED, UNCONFIRMED}`). -/
inductive ExposureType
  | CONFIRMED
  | UNCONFIRMED
deriving DecidableEq, Repr

/-- `pandemic_pb2.TestOutcome.Outcome`.  Modelled from the spec: the
outcome enum is `{POSITIVE, NEGATIVE, UNDETERMINED/other}`; `UNDETERMINED`
stands for every value other than `POSITIVE` and `NEGATIVE`. -/
inductive Outcome
  | POSITIVE
  | NEGATIVE
  | UNDETERMINED
deriving DecidableEq, Repr

/-- One exposure event of an `ExposureResult` record. -/
structure Exposure where
  exposure_type : ExposureType
  exposure_time : Option Int
  proximity_trace : List Rat
  distance : Rat
  duration : Option Int
  proximity_trace_temporal_resolution : Option Int
  duration_since_symptom_onset : Option Int
deriving DecidableEq, Repr

/-- An `ExposuresPerTestResult.ExposureResult` record. -/
structure ExposureResult where
  test_administered_time : Option Int
  infection_onset_time : Option Int
  outcome : Outcome
  exposures : List Exposure
deriving DecidableEq, Repr

/-- The loader configuration fixed at construction time, with the
constructor's default values. -/
structure Config where
  unconfirmed_exposures : Bool := false
  window_around_infection_onset_time : Bool := false
  selection_window_left : Int := 10
  selection_window_right : Int := 0
deriving DecidableEq, Repr

/-- One entry of `batch_exposure_list`: `(proximity_trace,
duration_since_symptom_onset_day, proximity_trace_temporal_resolution_minute)`. -/
structure FeatureTuple where
  proximity_trace : List Rat
  duration_since_symptom_onset_day : Option Int
  proximity_trace_temporal_resolution_minute : Int
deriving DecidableEq, Repr

/-- The errors `get_next_batch` can raise (`ValueError` in the source),
carrying the data the message interpolates. -/
inductive LoaderError
  | missing_distance (e : Exposure)
  | invalid_label (o : Outcome)
deriving DecidableEq, Repr

/-- `datetime.timedelta.days` of a duration of `s` total seconds: floor
division, toward negative infinity (`timedelta` normalisation). -/
def timedelta_days (s : Int) : Int :=
  Int.fdiv s 86400

/-- `datetime.timedelta.seconds` of a duration of `s` total seconds: the
remainder of `s` modulo `86400`, always in `[0, 86400)`. -/
def timedelta_seconds (s : Int) : Int :=
  Int.fmod s 86400

/-- `AbesimExposureDataLoader._seconds_to_mins`:
`timedelta.seconds // 60` — note `.seconds`, the within-day component,
not the total. -/
def seconds_to_mins (s : Int) : Int :=
  Int.fdiv (timedelta_seconds s) 60

/-- `is_confirmed` (inner helper of `get_next_batch`). -/
def is_confirmed (e : Exposure) : Bool :=
  e.exposure_type == .CONFIRMED

/-- `is_valid_unconfirmed` (inner helper of `get_next_batch`). -/
def is_valid_unconfirmed (cfg : Config) (e : Exposure) : Bool :=
  e.exposure_type == .UNCONFIRMED && cfg.unconfirmed_exposures

/-- `is_contained_in_window` (inner helper of `get_next_batch`):
`date_window_left <= exposure_time.ToDatetime() <= date_window_right`. -/
def is_contained_in_window (e : Exposure) (date_window_left date_window_right : Int) : Bool :=
  date_window_left ≤ messageFieldValue e.exposure_time &&
    messageFieldValue e.exposure_time ≤ date_window_right

/-- The window-selection branch of the record loop.  `none` is the
`continue` that removes the record ("Remove this record if
`window_around_infection_onset_time` is True and
`record.infection_onset_time` is None") — unreachable, because
`messageFieldTruthy` is constantly `true`. -/
def recordWindow (cfg : Config) (r : ExposureResult) : Option (Int × Int) :=
  if !cfg.window_around_infection_onset_time then
    let d := messageFieldValue r.test_administered_time
    some (d + 86400 * (-cfg.selection_window_left), d + 86400 * cfg.selection_window_right)
  else if messageFieldTruthy r.infection_onset_time then
    let d := messageFieldValue r.infection_onset_time
    some (d + 86400 * (-cfg.selection_window_left), d + 86400 * cfg.selection_window_right)
  else
    none

/-- The `duration_since_symptom_onset_day` assignment at the top of the
admitted branch of the exposure loop.  The emitted day is `some _`
whenever `messageFieldTruthy` holds — i.e. always; the `none` branch
("check if duration_since_symptom_onset is valid or None") is dead code. -/
def symptomOnsetDay (e : Exposure) : Option Int :=
  if messageFieldTruthy e.duration_since_symptom_onset then
    some (timedelta_days (messageFieldValue e.duration_since_symptom_onset))
  else
    none

/-- The body of `for exposure in record.exposures`: `.ok none` when the
event fails the admission filter (dropped silently), `.ok (some f)` when a
feature tuple is appended, `.error` for the missing-distance `ValueError`. -/
def processExposure (cfg : Config) (date_window_left date_window_right : Int)
    (e : Exposure) : Except LoaderError (Option FeatureTuple) :=
  if (is_confirmed e || is_valid_unconfirmed cfg e) &&
      is_contained_in_window e date_window_left date_window_right then
    if e.proximity_trace.isEmpty then
      if e.distance == 0 then
        .error (.missing_distance e)
      else
        .ok (some ⟨[e.distance], symptomOnsetDay e,
          seconds_to_mins (messageFieldValue e.duration)⟩)
    else
      .ok (some ⟨e.proximity_trace, symptomOnsetDay e,
        seconds_to_mins (messageFieldValue e.proximity_trace_temporal_resolution)⟩)
  else
    .ok none

/-- The whole `for exposure in record.exposures` loop: the feature tuples
appended for this record, in event order, or the first raised error. -/
def processExposures (cfg : Config) (date_window_left date_window_right : Int) :
    List Exposure → Except LoaderError (List FeatureTuple)
  | [] => .ok []
  | e :: rest =>
    match processExposure cfg date_window_left date_window_right e with
    | .error err => .error err
    | .ok none => processExposures cfg date_window_left date_window_right rest
    | .ok (some f) =>
      match processExposures cfg date_window_left date_window_right rest with
      | .error err => .error err
      | .ok fs => .ok (f :: fs)

/-- One iteration of the record loop, after the read: `.ok none` when the
record is removed by the window branch, otherwise the feature tuples, the
label, and `exposure_count` (which, since it is incremented exactly when a
tuple is appended, equals the number of tuples).  The exposure loop runs
before the label check, so a missing-distance error preempts an
invalid-label error on the same record. -/
def processRecord (cfg : Config) (r : ExposureResult) :
    Except LoaderError (Option (List FeatureTuple × Int × Nat)) :=
  match recordWindow cfg r with
  | none => .ok none
  | some (date_window_left, date_window_right) =>
    match processExposures cfg date_window_left date_window_right r.exposures with
    | .error err => .error err
    | .ok fs =>
      match r.outcome with
      | .POSITIVE => .ok (some (fs, 1, fs.length))
      | .NEGATIVE => .ok (some (fs, 0, fs.length))
      | o => .error (.invalid_label o)

/-- The `while` loop of `get_next_batch`, with the three accumulator lists
(`batch_exposure_list`, `batch_label_list`, `grouping_list`) and the
remaining stream.  The guard `len(batch_label_list) < batch_size and pos
!= size` is checked before each read; the result pairs the returned triple
with the stream left for the next call. -/
def getNextBatchLoop (cfg : Config) (batch_size : Nat) :
    List ExposureResult → List FeatureTuple → List Int → List Nat →
    Except LoaderError ((List FeatureTuple × List Int × List Nat) × List ExposureResult)
  | [], es, ls, gs => .ok ((es, ls, gs), [])
  | r :: rest, es, ls, gs =>
    if ls.length < batch_size then
      match processRecord cfg r with
      | .error err => .error err
      | .ok none => getNextBatchLoop cfg batch_size rest es ls gs
      | .ok (some (fs, label, count)) =>
        getNextBatchLoop cfg batch_size rest (es ++ fs) (ls ++ [label]) (gs ++ [count])
    else
      .ok ((es, ls, gs), r :: rest)

/-- `AbesimExposureDataLoader.get_next_batch(batch_size)` on a stream of
records: returns `(batch_exposure_list, batch_label_list, grouping_list)`
and the advanced cursor, or the raised `ValueError`. -/
def get_next_batch (cfg : Config) (batch_size : Nat) (stream : List ExposureResult) :
    Except LoaderError ((List FeatureTuple × List Int × List Nat) × List ExposureResult) :=
  getNextBatchLoop cfg batch_size stream [] [] []

/-- Whether a record is consumed into the batch without error by
`processRecord`: it is neither removed by the window branch nor the source
of a raised `ValueError`. -/
def processedOk (cfg : Config) (r : ExposureResult) : Bool :=
  match processRecord cfg r with
  | .ok (some _) => true
  | _ => false

/-- The number of records in a stream whose `infection_onset_time` field
is set on the wire. -/
def countPresentOnset (rs : List ExposureResult) : Nat :=
  (rs.filter (fun r => r.infection_onset_time.isSome)).length

/-- Draining driver: call `get_next_batch` repeatedly (at most `fuel`
times) until the stream is exhausted or a call raises, recording each
batch's label count. -/
def drainSizes (cfg : Config) (batch_size : Nat) :
    Nat → List ExposureResult → List Nat
  | 0, _ => []
  | _, [] => []
  | fuel + 1, r :: rest =>
    match get_next_batch cfg batch_size (r :: rest) with
    | .error _ => []
    | .ok ((_, ls, _), remaining) =>
      ls.length :: drainSizes cfg batch_size fuel remaining

/-- The batch sizes P1 predicts for a zero-skip stream of `n` records and
batch size `b`: `n / b` full batches and, unless `b` divides `n`, one
final batch of `n % b` records. -/
def expectedSizes (n b : Nat) : List Nat :=
  List.replicate (n / b) b ++ (if n % b = 0 then [] else [n % b])

/-! ## Concrete inputs for evaluation theorems -/

/-- A Mode B configuration (`window_around_infection_onset_time = True`),
other options at their defaults. -/
def cfgModeB : Config :=
  { window_around_infection_onset_time := true }

/-- A record with no `infection_onset_time` on the wire, a valid NEGATIVE
outcome and no exposures. -/
def recNoOnset : ExposureResult :=
  { test_administered_time := some 864000
    infection_onset_time := none
    outcome := .NEGATIVE
    exposures := [] }

/-- A CONFIRMED, in-window (for the default configuration anchored at
test time `0`) exposure carrying a proximity trace but no
`duration_since_symptom_onset` on the wire. -/
def expNoSymptomOnset : Exposure :=
  { exposure_type := .CONFIRMED
    exposure_time := some 0
    proximity_trace := [2]
    distance := 0
    duration := some 0
    proximity_trace_temporal_resolution := some 300
    duration_since_symptom_onset := none }

/-- The record holding `expNoSymptomOnset`, POSITIVE outcome. -/
def recNoSymptomOnset : ExposureResult :=
  { test_administered_time := some 0
    infection_onset_time := none
    outcome := .POSITIVE
    exposures := [expNoSymptomOnset] }

/-- An admitted fallback-path exposure whose `duration` is one day plus
one minute (86460 seconds). -/
def expLongDuration : Exposure :=
  { exposure_type := .CONFIRMED
    exposure_time := some 43200
    proximity_trace := []
    distance := 1
    duration := some 86460
    proximity_trace_temporal_resolution := some 0
    duration_since_symptom_onset := some 0 }

/-- The record holding `expLongDuration`. -/
def recLongDuration : ExposureResult :=
  { test_administered_time := some 86400
    infection_onset_time := none
    outcome := .POSITIVE
    exposures := [expLongDuration] }

/-- The P6 fallback exposure: empty trace, `distance = 1.0`,
`duration = 1800` seconds, CONFIRMED, in window. -/
def expFallback : Exposure :=
  { exposure_type := .CONFIRMED
    exposure_time := some 43200
    proximity_trace := []
    distance := 1
    duration := some 1800
    proximity_trace_temporal_resolution := some 0
    duration_since_symptom_onset := some 0 }

/-- The record holding `expFallback`, NEGATIVE outcome (as in the
`test_reads_without_traces` fixture). -/
def recFallback : ExposureResult :=
  { test_administered_time := some 86400
    infection_onset_time := none
    outcome := .NEGATIVE
    exposures := [expFallback] }

/-- A record with no exposures, a present test time and a NEGATIVE
outcome: consumed into a batch as label `0` with group size `0`. -/
def recPlain : ExposureResult :=
  { test_administered_time := some 0
    infection_onset_time := none
    outcome := .NEGATIVE
    exposures := [] }

/-- A record whose outcome is neither POSITIVE nor NEGATIVE. -/
def recInvalid : ExposureResult :=
  { test_administered_time := some 0
    infection_onset_time := none
    outcome := .UNDETERMINED
    exposures := [] }

/-- The `_get_exposures_missing_required_data` fixture of the unit tests:
a CONFIRMED in-window exposure with neither a proximity trace nor a
distance (the unset scalar reads `0.0`). -/
def expMissingDistance : Exposure :=
  { exposure_type := .CONFIRMED
    exposure_time := some 43200
    proximity_trace := []
    distance := 0
    duration := some 0
    proximity_trace_temporal_resolution := some 0
    duration_since_symptom_onset := some 0 }

/-- The record holding `expMissingDistance`. -/
def recMissingDistance : ExposureResult :=
  { test_administered_time := some 86400
    infection_onset_time := none
    outcome := .POSITIVE
    exposures := [expMissingDistance] }

/-- A CONFIRMED exposure sitting exactly on the left window bound of a
default-configuration window anchored at time `0` (ten days before the
anchor). -/
def expOnLeftBound : Exposure :=
  { exposure_type := .CONFIRMED
    exposure_time := some (-864000)
    proximity_trace := [3]
    distance := 0
    duration := some 0
    proximity_trace_temporal_resolution := some 60
    duration_since_symptom_onset := some 0 }

/-! ## Theorems -/

/-- Claim C1 (code_bug evaluation).  In Mode B, a record whose
`infection_onset_time` is absent is *not* skipped: `get_next_batch` still
emits a label and a group-size entry for it (the window is anchored at the
default epoch timestamp), so draining a stream consisting of that one
record yields one label although zero records have a present onset.  The
skip branch of the source is dead code because a protobuf message field is
always truthy. -/
theorem c1_mode_b_no_onset_record_is_not_skipped :
    cfgModeB.window_around_infection_onset_time = true ∧
    recNoOnset.infection_onset_time = none ∧
    countPresentOnset [recNoOnset] = 0 ∧
    get_next_batch cfgModeB 128 [recNoOnset] = .ok (([], [0], [0]), []) ∧
    ([0] : List Int).length ≠ countPresentOnset [recNoOnset] :=
  ⟨rfl, rfl, rfl, by rfl, by decide⟩

/-- Claim C3 (code_bug evaluation).  An admitted exposure whose
`duration_since_symptom_onset` field is absent does not produce an absent
`durationSinceSymptomOnsetDays`: the emitted value is `some 0` (the default
zero duration converted to days), because the presence check
`if exposure.duration_since_symptom_onset:` is always true on a message
field. -/
theorem c3_absent_symptom_onset_emitted_as_zero_days :
    expNoSymptomOnset.duration_since_symptom_onset = none ∧
    get_next_batch {} 128 [recNoSymptomOnset] =
      .ok (([⟨[2], some 0, 5⟩], [1], [1]), []) :=
  ⟨rfl, by rfl⟩

/-- Claim C9 (confirmed).  A record with one admitted CONFIRMED in-window
exposure whose `proximity_trace` is empty, `distance = 1.0`, and
`duration = 1800` seconds yields exactly one feature tuple
`([1.0], <days>, 30)` and group size `1`. -/
theorem c9_fallback_single_sample_trace :
    expFallback.proximity_trace = [] ∧
    expFallback.distance = 1 ∧
    expFallback.duration = some 1800 ∧
    get_next_batch {} 1 [recFallback] = .ok (([⟨[1], some 0, 30⟩], [0], [1]), []) :=
  ⟨rfl, rfl, rfl, by rfl⟩

/-- Claim C8 (counterexample).  For a fallback-path exposure with
`duration = 86460` seconds (one day and one minute) the emitted temporal
resolution is `1` minute — `timedelta.seconds // 60` drops the day
component — whereas the whole duration integer-divided by 60 is `1441`. -/
theorem c8_counterexample_day_long_duration :
    expLongDuration.proximity_trace = [] ∧
    expLongDuration.duration = some 86460 ∧
    get_next_batch {} 128 [recLongDuration] =
      .ok (([⟨[1], some 0, 1⟩], [1], [1]), []) ∧
    Int.fdiv 86460 60 = 1441 ∧ (1 : Int) ≠ 1441 :=
  ⟨rfl, rfl, by rfl, by decide, by decide⟩

/-- Claim C8 (amended).  For every admitted exposure event, the emitted
temporal resolution equals the whole-minute conversion of the *sub-day
component* of the source duration — `(total seconds mod 86400) // 60`,
Python's `timedelta.seconds // 60` — where the source duration is
`proximity_trace_temporal_resolution` when `proximity_trace` is non-empty
and `duration` when it is empty.  This agrees with total-seconds `// 60`
only for nonnegative durations shorter than one day. -/
theorem c8_amended_subday_whole_minutes (cfg : Config) (wl wr : Int)
    (e : Exposure) (f : FeatureTuple)
    (h : processExposure cfg wl wr e = .ok (some f)) :
    f.proximity_trace_temporal_resolution_minute =
      Int.fdiv (Int.fmod (messageFieldValue
        (if e.proximity_trace.isEmpty then e.duration
         else e.proximity_trace_temporal_resolution)) 86400) 60 := by
  rw [processExposure] at h
  by_cases hadm : ((is_confirmed e || is_valid_unconfirmed cfg e) &&
      is_contained_in_window e wl wr) = true
  · rw [if_pos hadm] at h
    by_cases htr : e.proximity_trace.isEmpty
    · rw [if_pos htr] at h
      by_cases hd : (e.distance == 0) = true
      · rw [if_pos hd] at h
        exact absurd h (by simp)
      · rw [if_neg hd] at h
        simp only [Except.ok.injEq, Option.some.injEq] at h
        subst h
        have h0 : e.proximity_trace = [] := by simpa using htr
        simp [h0, seconds_to_mins, timedelta_seconds]
    · rw [if_neg htr] at h
      simp only [Except.ok.injEq, Option.some.injEq] at h
      subst h
      have h0 : ¬e.proximity_trace = [] := by simpa using htr
      simp [h0, seconds_to_mins, timedelta_seconds]
  · rw [if_neg hadm] at h
    exact absurd h (by simp)

/-- Witness for `c8_amended_subday_whole_minutes` at the concrete
fallback exposure `expFallback` inside a default-configuration window. -/
theorem c8_amended_subday_whole_minutes_witness :
    processExposure {} (-777600) 86400 expFallback = .ok (some ⟨[1], some 0, 30⟩) ∧
    (30 : Int) =
      Int.fdiv (Int.fmod (messageFieldValue
        (if expFallback.proximity_trace.isEmpty then expFallback.duration
         else expFallback.proximity_trace_temporal_resolution)) 86400) 60 :=
  ⟨by rfl,
    c8_amended_subday_whole_minutes {} (-777600) 86400 expFallback ⟨[1], some 0, 30⟩ (by rfl)⟩

/-- Claim C10 (confirmed).  An exposure with an empty `proximity_trace` and
`distance = 0.0` behaves exactly like one with an absent distance (the
proto3 scalar has no presence; unset reads `0.0`): if the event passes the
admission filter the loader raises the missing-distance `ValueError`,
otherwise the event is dropped silently; in no case is a fallback feature
tuple `[0.0]` (or any other tuple) produced. -/
theorem c10_zero_distance_raises_missing_distance (cfg : Config) (wl wr : Int)
    (e : Exposure)
    (htrace : e.proximity_trace = [])
    (hdist : e.distance = 0) :
    processExposure cfg wl wr e =
      (if (is_confirmed e || is_valid_unconfirmed cfg e) &&
          is_contained_in_window e wl wr
       then .error (.missing_distance e)
       else .ok none) ∧
    (∀ f, processExposure cfg wl wr e ≠ .ok (some f)) := by
  have htr : e.proximity_trace.isEmpty = true := by simp [htrace]
  have hd : (e.distance == 0) = true := by simp [hdist]
  constructor
  · rw [processExposure]
    by_cases hadm : ((is_confirmed e || is_valid_unconfirmed cfg e) &&
        is_contained_in_window e wl wr) = true
    · rw [if_pos hadm, if_pos hadm, if_pos htr, if_pos hd]
    · rw [if_neg hadm, if_neg hadm]
  · intro f hcontra
    rw [processExposure] at hcontra
    by_cases hadm : ((is_confirmed e || is_valid_unconfirmed cfg e) &&
        is_contained_in_window e wl wr) = true
    · rw [if_pos hadm, if_pos htr, if_pos hd] at hcontra
      exact absurd hcontra (by simp)
    · rw [if_neg hadm] at hcontra
      exact absurd hcontra (by simp)

/-- Witness for `c10_zero_distance_raises_missing_distance` at the
fixture exposure `expMissingDistance` inside the default window anchored
at its record's test time. -/
theorem c10_zero_distance_raises_missing_distance_witness :
    expMissingDistance.proximity_trace = [] ∧
    expMissingDistance.distance = 0 ∧
    (processExposure {} (-777600) 86400 expMissingDistance =
      (if (is_confirmed expMissingDistance ||
            is_valid_unconfirmed {} expMissingDistance) &&
          is_contained_in_window expMissingDistance (-777600) 86400
       then .error (.missing_distance expMissingDistance)
       else .ok none) ∧
     (∀ f, processExposure {} (-777600) 86400 expMissingDistance ≠ .ok (some f))) :=
  ⟨rfl, rfl,
    c10_zero_distance_raises_missing_distance {} (-777600) 86400 expMissingDistance rfl rfl⟩

/-- An exposure event is dropped silently (`.ok none`, no feature, no
error) exactly when the admission guard of the source is false. -/
lemma processExposure_ok_none_iff (cfg : Config) (wl wr : Int) (e : Exposure) :
    processExposure cfg wl wr e = .ok none ↔
      ((is_confirmed e || is_valid_unconfirmed cfg e) &&
        is_contained_in_window e wl wr) = false := by
  rw [processExposure]
  cases hadm : ((is_confirmed e || is_valid_unconfirmed cfg e) &&
      is_contained_in_window e wl wr) with
  | false => simp
  | true => split_ifs <;> simp_all

/-- The admission guard, unfolded to the spec's wording. -/
lemma admission_guard_iff (cfg : Config) (wl wr t : Int) (e : Exposure)
    (ht : e.exposure_time = some t) :
    ((is_confirmed e || is_valid_unconfirmed cfg e) &&
        is_contained_in_window e wl wr) = true ↔
      ((e.exposure_type = .CONFIRMED ∨
         (e.exposure_type = .UNCONFIRMED ∧ cfg.unconfirmed_exposures = true)) ∧
        wl ≤ t ∧ t ≤ wr) := by
  simp [is_confirmed, is_valid_unconfirmed, is_contained_in_window,
    messageFieldValue, ht, and_assoc]

/-- Claim C4 (confirmed).  An exposure event of a processed record is
admitted — i.e. not dropped silently — iff its type passes the
CONFIRMED/UNCONFIRMED-with-flag policy and its time lies in the inclusive
window `[anchor - windowDaysBeforeAnchor, anchor + windowDaysAfterAnchor]`;
an event exactly on either bound is admitted, one outside either bound
(in particular one day outside) is dropped silently without error. -/
theorem c4_admission_filter (cfg : Config) (anchor t wl wr : Int) (e : Exposure)
    (ht : e.exposure_time = some t)
    (hwl : wl = anchor + 86400 * (-cfg.selection_window_left))
    (hwr : wr = anchor + 86400 * cfg.selection_window_right)
    (hord : wl ≤ wr) :
    ((processExposure cfg wl wr e ≠ .ok none) ↔
      ((e.exposure_type = .CONFIRMED ∨
         (e.exposure_type = .UNCONFIRMED ∧ cfg.unconfirmed_exposures = true)) ∧
        wl ≤ t ∧ t ≤ wr)) ∧
    (e.exposure_type = .CONFIRMED → t = wl → processExposure cfg wl wr e ≠ .ok none) ∧
    (e.exposure_type = .CONFIRMED → t = wr → processExposure cfg wl wr e ≠ .ok none) ∧
    (t < wl → processExposure cfg wl wr e = .ok none) ∧
    (wr < t → processExposure cfg wl wr e = .ok none) := by
  have hmain : (processExposure cfg wl wr e ≠ .ok none) ↔
      ((e.exposure_type = .CONFIRMED ∨
         (e.exposure_type = .UNCONFIRMED ∧ cfg.unconfirmed_exposures = true)) ∧
        wl ≤ t ∧ t ≤ wr) := by
    rw [Ne, processExposure_ok_none_iff]
    rw [Bool.not_eq_false]
    exact admission_guard_iff cfg wl wr t e ht
  refine ⟨hmain, ?_, ?_, ?_, ?_⟩
  · intro hc hteq
    exact hmain.mpr ⟨Or.inl hc, by omega, by omega⟩
  · intro hc hteq
    exact hmain.mpr ⟨Or.inl hc, by omega, by omega⟩
  · intro hlt
    by_contra hne
    exact absurd (hmain.mp hne).2.1 (by omega)
  · intro hlt
    by_contra hne
    exact absurd (hmain.mp hne).2.2 (by omega)

/-- Witness for `c4_admission_filter`: `expOnLeftBound` sits exactly on
the left bound of the default window anchored at `0` and is admitted. -/
theorem c4_admission_filter_witness :
    expOnLeftBound.exposure_time = some (-864000) ∧
    (-864000 : Int) = 0 + 86400 * (-(10 : Int)) ∧
    (0 : Int) = 0 + 86400 * (0 : Int) ∧
    expOnLeftBound.exposure_type = .CONFIRMED ∧
    processExposure {} (-864000) 0 expOnLeftBound ≠ .ok none :=
  ⟨rfl, by decide, by decide, rfl,
    (c4_admission_filter {} 0 (-864000) (-864000) 0 expOnLeftBound rfl (by decide)
      (by decide) (by decide)).2.1 rfl rfl⟩

/-- `processRecord` once the window branch has selected a window. -/
lemma processRecord_eq_of (cfg : Config) (r : ExposureResult) (wl wr : Int)
    (hw : recordWindow cfg r = some (wl, wr)) :
    processRecord cfg r =
      (match processExposures cfg wl wr r.exposures with
       | .error err => .error err
       | .ok fs =>
         match r.outcome with
         | .POSITIVE => .ok (some (fs, 1, fs.length))
         | .NEGATIVE => .ok (some (fs, 0, fs.length))
         | o => .error (.invalid_label o)) := by
  rw [processRecord, hw]

/-- `exposure_count` as returned by `processRecord` is the number of
feature tuples the record appended (the counter is incremented exactly
when a tuple is appended). -/
lemma processRecord_count (cfg : Config) (r : ExposureResult)
    (fs : List FeatureTuple) (l : Int) (c : Nat)
    (h : processRecord cfg r = .ok (some (fs, l, c))) : c = fs.length := by
  cases hw : recordWindow cfg r with
  | none => rw [processRecord, hw] at h; simp at h
  | some w =>
    obtain ⟨wl, wr⟩ := w
    rw [processRecord_eq_of cfg r wl wr hw] at h
    cases hx : processExposures cfg wl wr r.exposures with
    | error err => rw [hx] at h; simp at h
    | ok fs' =>
      rw [hx] at h
      cases ho : r.outcome <;> rw [ho] at h <;> simp at h
      · obtain ⟨h1, _, h3⟩ := h
        rw [← h3, h1]
      · obtain ⟨h1, _, h3⟩ := h
        rw [← h3, h1]

/-- A record passing `processedOk` is consumed as one label, one group
entry and a list of feature tuples. -/
lemma processedOk_spec (cfg : Config) (r : ExposureResult)
    (h : processedOk cfg r = true) :
    ∃ fs l c, processRecord cfg r = .ok (some (fs, l, c)) := by
  unfold processedOk at h
  cases hpr : processRecord cfg r with
  | error err => rw [hpr] at h; simp at h
  | ok o =>
    cases o with
    | none => rw [hpr] at h; simp at h
    | some v =>
      obtain ⟨fs, l, c⟩ := v
      exact ⟨fs, l, c, rfl⟩

/-- The loop invariant behind P2: the three accumulators stay parallel. -/
lemma getNextBatchLoop_invariant (cfg : Config) (B : Nat)
    (stream : List ExposureResult) :
    ∀ es ls gs es' ls' gs' rest,
      getNextBatchLoop cfg B stream es ls gs = .ok ((es', ls', gs'), rest) →
      ls.length = gs.length → gs.sum = es.length →
      ls'.length = gs'.length ∧ gs'.sum = es'.length := by
  induction stream with
  | nil =>
    intro es ls gs es' ls' gs' rest h h1 h2
    rw [getNextBatchLoop] at h
    simp only [Except.ok.injEq, Prod.mk.injEq] at h
    obtain ⟨⟨h3, h4, h5⟩, _⟩ := h
    subst h3; subst h4; subst h5
    exact ⟨h1, h2⟩
  | cons r rest ih =>
    intro es ls gs es' ls' gs' rem h h1 h2
    rw [getNextBatchLoop] at h
    split at h
    · cases hpr : processRecord cfg r with
      | error err => rw [hpr] at h; simp at h
      | ok o =>
        rw [hpr] at h
        cases o with
        | none => exact ih es ls gs es' ls' gs' rem h h1 h2
        | some v =>
          obtain ⟨fs, l, c⟩ := v
          have hc : c = fs.length := processRecord_count cfg r fs l c hpr
          refine ih (es ++ fs) (ls ++ [l]) (gs ++ [c]) es' ls' gs' rem h ?_ ?_
          · simp [h1]
          · simp [h2, hc]
    · simp only [Except.ok.injEq, Prod.mk.injEq] at h
      obtain ⟨⟨h3, h4, h5⟩, _⟩ := h
      subst h3; subst h4; subst h5
      exact ⟨h1, h2⟩

/-- Claim C2 (confirmed).  Every batch returned by `get_next_batch` has
`len(grouping_list) = len(batch_label_list)` and `sum(grouping_list) =
len(batch_exposure_list)`: each consumed record contributes exactly one
label and one group-size entry (possibly zero), and the group sizes
account for all emitted feature tuples. -/
theorem c2_batch_parallel_invariants (cfg : Config) (B : Nat)
    (stream : List ExposureResult) (es : List FeatureTuple) (ls : List Int)
    (gs : List Nat) (rest : List ExposureResult)
    (h : get_next_batch cfg B stream = .ok ((es, ls, gs), rest)) :
    ls.length = gs.length ∧ gs.sum = es.length :=
  getNextBatchLoop_invariant cfg B stream [] [] [] es ls gs rest h rfl rfl

/-- Witness for `c2_batch_parallel_invariants` on a concrete two-record
stream (one record with an admitted fallback exposure, one with no
exposures at all). -/
theorem c2_batch_parallel_invariants_witness :
    get_next_batch {} 2 [recFallback, recPlain] =
      .ok (([⟨[1], some 0, 30⟩], [0, 0], [1, 0]), []) ∧
    (([0, 0] : List Int).length = ([1, 0] : List Nat).length ∧
      ([1, 0] : List Nat).sum = ([⟨[1], some 0, 30⟩] : List FeatureTuple).length) :=
  ⟨by rfl,
    c2_batch_parallel_invariants {} 2 [recFallback, recPlain] _ _ _ _ (by rfl)⟩

/-- Claim C6 (confirmed).  For every record processed (not skipped) whose
exposure loop completes, the label step appends `1` for POSITIVE, `0` for
NEGATIVE, and for any other outcome raises `ValueError` — such a record is
never silently skipped and never yields a label outside `{0, 1}`; the
raised error aborts the whole `get_next_batch` call. -/
theorem c6_label_derivation_and_abort (cfg : Config) (r : ExposureResult)
    (wl wr : Int) (fs : List FeatureTuple)
    (hw : recordWindow cfg r = some (wl, wr))
    (hf : processExposures cfg wl wr r.exposures = .ok fs) :
    processRecord cfg r =
      (match r.outcome with
       | .POSITIVE => .ok (some (fs, 1, fs.length))
       | .NEGATIVE => .ok (some (fs, 0, fs.length))
       | o => .error (.invalid_label o)) ∧
    (∀ B rest, 1 ≤ B → r.outcome ≠ .POSITIVE → r.outcome ≠ .NEGATIVE →
      get_next_batch cfg B (r :: rest) = .error (.invalid_label r.outcome)) := by
  have hpr : processRecord cfg r =
      (match r.outcome with
       | .POSITIVE => .ok (some (fs, 1, fs.length))
       | .NEGATIVE => .ok (some (fs, 0, fs.length))
       | o => .error (.invalid_label o)) := by
    rw [processRecord_eq_of cfg r wl wr hw, hf]
  refine ⟨hpr, ?_⟩
  intro B rest hB hp hn
  have herr : processRecord cfg r = .error (.invalid_label r.outcome) := by
    rw [hpr]
    cases ho : r.outcome with
    | POSITIVE => exact absurd ho hp
    | NEGATIVE => exact absurd ho hn
    | UNDETERMINED => rfl
  rw [get_next_batch, getNextBatchLoop, if_pos (by simpa using hB), herr]

/-- Witness for `c6_label_derivation_and_abort` at the UNDETERMINED-outcome
record `recInvalid`. -/
theorem c6_label_derivation_and_abort_witness :
    recordWindow {} recInvalid = some (-864000, 0) ∧
    processExposures {} (-864000) 0 recInvalid.exposures = .ok [] ∧
    get_next_batch {} 1 [recInvalid] = .error (.invalid_label .UNDETERMINED) :=
  ⟨by rfl, by rfl,
    (c6_label_derivation_and_abort {} recInvalid (-864000) 0 [] (by rfl) (by rfl)).2
      1 [] (by decide) (by decide) (by decide)⟩

/-- A record holding exactly one admitted exposure with an empty trace
and a zero/absent distance makes `processRecord` raise the
missing-distance `ValueError`. -/
lemma processRecord_missing_distance (cfg : Config) (r : ExposureResult)
    (e : Exposure) (wl wr : Int)
    (hw : recordWindow cfg r = some (wl, wr))
    (hexp : r.exposures = [e])
    (hadm : ((is_confirmed e || is_valid_unconfirmed cfg e) &&
      is_contained_in_window e wl wr) = true)
    (htrace : e.proximity_trace = [])
    (hdist : e.distance = 0) :
    processRecord cfg r = .error (.missing_distance e) := by
  have hpe : processExposure cfg wl wr e = .error (.missing_distance e) := by
    rw [processExposure, if_pos hadm, if_pos (by simp [htrace]), if_pos (by simp [hdist])]
  have hpes : processExposures cfg wl wr r.exposures = .error (.missing_distance e) := by
    rw [hexp, processExposures, hpe]
  rw [processRecord_eq_of cfg r wl wr hw, hpes]

/-- If a record raising an error is reached while the batch still has
budget, the whole loop returns that error, discarding the accumulators. -/
lemma getNextBatchLoop_error (cfg : Config) (B : Nat) (err : LoaderError)
    (r : ExposureResult) (rest : List ExposureResult)
    (hr : processRecord cfg r = .error err) :
    ∀ (good : List ExposureResult),
      ∀ (es : List FeatureTuple) (ls : List Int) (gs : List Nat),
      (∀ g ∈ good, processedOk cfg g = true) →
      ls.length + good.length < B →
      getNextBatchLoop cfg B (good ++ (r :: rest)) es ls gs = .error err := by
  intro good
  induction good with
  | nil =>
    intro es ls gs _ hlen
    rw [List.nil_append, getNextBatchLoop, if_pos (by simpa using hlen), hr]
  | cons g gtl ih =>
    intro es ls gs hgood hlen
    rw [List.cons_append, getNextBatchLoop,
      if_pos (by simp only [List.length_cons] at hlen; omega)]
    obtain ⟨fs, l, c, hpr⟩ := processedOk_spec cfg g (hgood g (by simp))
    rw [hpr]
    exact ih (es ++ fs) (ls ++ [l]) (gs ++ [c])
      (fun x hx => hgood x (by simp [hx]))
      (by simp only [List.length_append, List.length_cons,
        List.length_nil] at hlen ⊢; omega)

/-- Claim C7 (confirmed).  If the call reaches (with batch budget left) a
record whose single exposure event is admitted but has an empty
`proximity_trace` and a zero/absent `distance`, `get_next_batch` returns
the missing-distance `ValueError` identifying the offending exposure
instead of returning normally; the partial batch accumulated so far in the
call is discarded (the error return carries no batch data).  With an empty
prefix this covers every requested batch size `≥ 1`. -/
theorem c7_missing_distance_aborts_call (cfg : Config) (B : Nat)
    (good rest : List ExposureResult) (r : ExposureResult) (e : Exposure)
    (wl wr : Int)
    (hB : good.length < B)
    (hgood : ∀ g ∈ good, processedOk cfg g = true)
    (hw : recordWindow cfg r = some (wl, wr))
    (hexp : r.exposures = [e])
    (hadm : ((is_confirmed e || is_valid_unconfirmed cfg e) &&
      is_contained_in_window e wl wr) = true)
    (htrace : e.proximity_trace = [])
    (hdist : e.distance = 0) :
    get_next_batch cfg B (good ++ r :: rest) = .error (.missing_distance e) := by
  have hr := processRecord_missing_distance cfg r e wl wr hw hexp hadm htrace hdist
  exact getNextBatchLoop_error cfg B _ r rest hr good [] [] [] hgood (by simpa using hB)

/-- Witness for `c7_missing_distance_aborts_call`: the
`_get_exposures_missing_required_data` fixture record alone in the stream,
batch size `1`. -/
theorem c7_missing_distance_aborts_call_witness :
    recordWindow {} recMissingDistance = some (-777600, 86400) ∧
    recMissingDistance.exposures = [expMissingDistance] ∧
    get_next_batch {} 1 [recMissingDistance] =
      .error (.missing_distance expMissingDistance) :=
  ⟨by rfl, rfl,
    c7_missing_distance_aborts_call {} 1 [] [] recMissingDistance expMissingDistance
      (-777600) 86400 (by decide) (by simp) (by rfl) rfl (by decide) rfl rfl⟩

/-- On a stream of records that all process cleanly, the loop returns
normally, consuming `min (budget left) (stream length)` records and
leaving exactly the unconsumed suffix of the stream. -/
lemma getNextBatchLoop_ok_all (cfg : Config) (B : Nat)
    (stream : List ExposureResult) :
    ∀ es ls gs, (∀ r ∈ stream, processedOk cfg r = true) →
      ∃ es' ls' gs',
        getNextBatchLoop cfg B stream es ls gs =
          .ok ((es', ls', gs'), stream.drop (B - ls.length)) ∧
        ls'.length = ls.length + min (B - ls.length) stream.length := by
  induction stream with
  | nil =>
    intro es ls gs _
    exact ⟨es, ls, gs, by rw [getNextBatchLoop, List.drop_nil], by simp⟩
  | cons r rest ih =>
    intro es ls gs hok
    by_cases hlt : ls.length < B
    · obtain ⟨fs, l, c, hpr⟩ := processedOk_spec cfg r (hok r (by simp))
      obtain ⟨es', ls', gs', hloop, hlen⟩ :=
        ih (es ++ fs) (ls ++ [l]) (gs ++ [c]) (fun x hx => hok x (by simp [hx]))
      refine ⟨es', ls', gs', ?_, ?_⟩
      · have hstep : (r :: rest).drop (B - ls.length) =
            rest.drop (B - (ls ++ [l]).length) := by
          have h1 : B - ls.length = (B - (ls ++ [l]).length) + 1 := by
            simp only [List.length_append, List.length_cons, List.length_nil]
            omega
          rw [h1, List.drop_succ_cons]
        rw [getNextBatchLoop, if_pos hlt, hpr, hstep]
        exact hloop
      · simp only [List.length_append, List.length_cons, List.length_nil] at hlen ⊢
        omega
    · refine ⟨es, ls, gs, ?_, ?_⟩
      · have h0 : B - ls.length = 0 := by omega
        rw [getNextBatchLoop, if_neg hlt, h0, List.drop_zero]
      · have h0 : B - ls.length = 0 := by omega
        simp [h0]

/-- `get_next_batch` on an all-clean stream: `min B N` labels, and the
cursor advances past exactly the first `min B N` records. -/
lemma get_next_batch_ok_all (cfg : Config) (B : Nat)
    (stream : List ExposureResult)
    (hok : ∀ r ∈ stream, processedOk cfg r = true) :
    ∃ es ls gs,
      get_next_batch cfg B stream = .ok ((es, ls, gs), stream.drop B) ∧
      ls.length = min B stream.length := by
  obtain ⟨es, ls, gs, h1, h2⟩ := getNextBatchLoop_ok_all cfg B stream [] [] [] hok
  exact ⟨es, ls, gs, by simpa using h1, by simpa using h2⟩

/-- Unfolding step of P1's expected batch sizes: a nonempty stream yields
a first batch of `min b n` and the expectation recurses on the rest. -/
lemma expectedSizes_pos (n b : Nat) (hn : 0 < n) (hb : 0 < b) :
    expectedSizes n b = min b n :: expectedSizes (n - min b n) b := by
  rcases le_or_lt n b with hle | hlt
  · have hmin : min b n = n := by omega
    rw [hmin, Nat.sub_self]
    have h0 : expectedSizes 0 b = [] := by simp [expectedSizes]
    rw [h0]
    rcases eq_or_lt_of_le hle with heq | hlt2
    · rw [expectedSizes, heq, Nat.div_self hb, Nat.mod_self]
      simp
    · rw [expectedSizes, Nat.div_eq_of_lt hlt2, Nat.mod_eq_of_lt hlt2]
      simp [Nat.pos_iff_ne_zero.mp hn]
  · have hmin : min b n = b := by omega
    rw [hmin]
    simp only [expectedSizes]
    rw [Nat.div_eq_sub_div hb (le_of_lt hlt), ← Nat.mod_eq_sub_mod (le_of_lt hlt),
      List.replicate_succ, List.cons_append]

/-- The expected sizes sum to the stream length. -/
lemma expectedSizes_sum (n b : Nat) : (expectedSizes n b).sum = n := by
  rw [expectedSizes]
  by_cases hm : n % b = 0
  · rw [if_pos hm, List.append_nil]
    simp only [List.sum_replicate, smul_eq_mul]
    exact Nat.div_mul_cancel (Nat.dvd_of_mod_eq_zero hm)
  · rw [if_neg hm]
    simp only [List.sum_append, List.sum_replicate, smul_eq_mul, List.sum_cons,
      List.sum_nil, Nat.add_zero]
    exact Nat.div_add_mod' n b

/-- There are `ceil(n / b)` expected batches. -/
lemma expectedSizes_length (n b : Nat) (hb : 0 < b) :
    (expectedSizes n b).length = (n + b - 1) / b := by
  have hb1 : b - 1 < b := by omega
  have hadd : n + b - 1 = n + (b - 1) := by omega
  rw [expectedSizes, hadd, Nat.add_div hb, Nat.div_eq_of_lt hb1, Nat.mod_eq_of_lt hb1]
  by_cases hm : n % b = 0
  · have hcond : ¬b ≤ n % b + (b - 1) := by omega
    rw [if_pos hm, if_neg hcond]
    simp
  · have h2 : 1 ≤ n % b := Nat.one_le_iff_ne_zero.mpr hm
    have hcond : b ≤ n % b + (b - 1) := by omega
    rw [if_neg hm, if_pos hcond]
    simp

/-- Every expected batch except possibly the last is full. -/
lemma expectedSizes_dropLast (n b : Nat) :
    ∀ s ∈ (expectedSizes n b).dropLast, s = b := by
  rw [expectedSizes]
  by_cases hm : n % b = 0
  · rw [if_pos hm, List.append_nil]
    intro s hs
    exact List.eq_of_mem_replicate (List.mem_of_mem_dropLast hs)
  · rw [if_neg hm]
    intro s hs
    rw [List.dropLast_concat] at hs
    exact List.eq_of_mem_replicate hs

/-- When `b` does not divide `n`, the final expected batch holds the
remaining `n - b * (n / b)` records. -/
lemma expectedSizes_getLast (n b : Nat) (hm : n % b ≠ 0) :
    (expectedSizes n b).getLast? = some (n - b * (n / b)) := by
  rw [expectedSizes]
  simp only [if_neg hm, List.getLast?_concat, Option.some.injEq]
  have h := Nat.div_add_mod n b
  have h2 : n = n % b + b * (n / b) := by rw [Nat.add_comm]; exact h.symm
  exact (Nat.sub_eq_of_eq_add h2).symm

/-- Draining an all-clean stream with enough fuel produces exactly the
expected batch sizes. -/
lemma drainSizes_eq (cfg : Config) (B : Nat) (hB : 0 < B) :
    ∀ (fuel : Nat) (stream : List ExposureResult),
      stream.length ≤ fuel →
      (∀ r ∈ stream, processedOk cfg r = true) →
      drainSizes cfg B fuel stream = expectedSizes stream.length B := by
  intro fuel
  induction fuel with
  | zero =>
    intro stream hlen _
    have h0 : stream = [] := List.eq_nil_of_length_eq_zero (by omega)
    subst h0
    rw [drainSizes]
    simp [expectedSizes]
  | succ fuel ih =>
    intro stream hlen hok
    cases stream with
    | nil =>
      have h0 : drainSizes cfg B (fuel + 1) [] = [] := rfl
      rw [h0]
      simp [expectedSizes]
    | cons r rest =>
      obtain ⟨es, ls, gs, hcall, hls⟩ := get_next_batch_ok_all cfg B (r :: rest) hok
      have hdrop_ok : ∀ x ∈ (r :: rest).drop B, processedOk cfg x = true :=
        fun x hx => hok x (List.mem_of_mem_drop hx)
      have hdrop_len : ((r :: rest).drop B).length ≤ fuel := by
        simp only [List.length_drop, List.length_cons] at *
        omega
      have hstep : drainSizes cfg B (fuel + 1) (r :: rest) =
          ls.length :: drainSizes cfg B fuel ((r :: rest).drop B) := by
        rw [drainSizes, hcall]
      rw [hstep, ih ((r :: rest).drop B) hdrop_len hdrop_ok, List.length_drop, hls,
        expectedSizes_pos (r :: rest).length B (by simp) hB]
      congr 2
      simp only [List.length_cons]
      omega

/-- Claim C5 (confirmed).  For a stream of `N` records none of which is
skipped or raises, repeated `get_next_batch(B)` calls with fixed `B > 0`
partition the stream: draining yields `ceil(N/B)` batches whose label
counts sum to `N`, every batch except the last has exactly `B` labels,
and when `B` does not divide `N` the last batch has `N - B * floor(N/B)`
labels. -/
theorem c5_pagination_partitions_stream (cfg : Config) (B : Nat)
    (stream : List ExposureResult) (hB : 0 < B)
    (hok : ∀ r ∈ stream, processedOk cfg r = true) :
    drainSizes cfg B stream.length stream = expectedSizes stream.length B ∧
    (expectedSizes stream.length B).sum = stream.length ∧
    (expectedSizes stream.length B).length = (stream.length + B - 1) / B ∧
    (∀ s ∈ (expectedSizes stream.length B).dropLast, s = B) ∧
    (stream.length % B ≠ 0 →
      (expectedSizes stream.length B).getLast? =
        some (stream.length - B * (stream.length / B))) :=
  ⟨drainSizes_eq cfg B hB stream.length stream le_rfl hok,
    expectedSizes_sum stream.length B,
    expectedSizes_length stream.length B hB,
    expectedSizes_dropLast stream.length B,
    fun hm => expectedSizes_getLast stream.length B hm⟩

/-- Witness for `c5_pagination_partitions_stream`: the 30-record zero-skip
store with batch size 16 drains as two batches of 16 and 14 labels. -/
theorem c5_pagination_partitions_stream_witness :
    (0 : Nat) < 16 ∧
    (∀ r ∈ List.replicate 30 recPlain, processedOk {} r = true) ∧
    drainSizes {} 16 (List.replicate 30 recPlain).length (List.replicate 30 recPlain) =
      expectedSizes (List.replicate 30 recPlain).length 16 ∧
    expectedSizes (List.replicate 30 recPlain).length 16 = [16, 14] :=
  ⟨by decide, by decide,
    (c5_pagination_partitions_stream {} 16 (List.replicate 30 recPlain)
      (by decide) (by decide)).1,
    by rfl⟩

end AbesimDataLoader
